import Mathlib

/-!
Verification of the loyalty-prototype data model
(src/loyalty_prototype/models.py).

The repository ships only the SQLAlchemy schema: nine record types, their
column defaults, the uniqueness constraints (tenant name, tenant+sku,
voucher code) and the foreign-key columns.  The storage engine that
enforces those declarations is not part of the source, so the CRUD
primitives (create-record, fetch-by-id, in-place state update) are
modelled from the spec, with every constraint predicate read off the
schema declarations in models.py.

Datetimes are modelled as natural-number timestamps; JSON columns as an
explicit `Json` value type; nullable columns as `Option`.
-/

namespace Loyalty

/-- JSON values as stored in the schemaless columns (attributes, target,
benefit, limits, applies_to, payload, lines, attribution). -/
inductive Json where
  | null : Json
  | bool (b : Bool) : Json
  | num (n : Int) : Json
  | str (s : String) : Json
  | arr (xs : List Json) : Json
  | obj (kvs : List (String × Json)) : Json

/-- Error taxonomy of the storage layer (spec section 7). -/
inductive DBError where
  | UniquenessViolation : DBError
  | ReferentialIntegrityViolation : DBError
  | NotFound : DBError
deriving DecidableEq

/-- Row of the tenants table (models.py, class Tenant). -/
structure Tenant where
  id : String
  name : String
  created_at : Nat
deriving DecidableEq

/-- Row of the users table (models.py, class User). -/
structure User where
  id : String
  tenant_id : String
  email : Option String
  phone : Option String
  attributes : Json
  consent_push : Bool
  consent_mktg : Bool
  created_at : Nat

/-- Row of the products table (models.py, class Product). -/
structure Product where
  id : String
  tenant_id : String
  sku : String
  name : String
  category : Option String
  price_cents : Int
  attributes : Json
  created_at : Nat

/-- Row of the campaigns table (models.py, class Campaign). -/
structure Campaign where
  id : String
  tenant_id : String
  name : String
  status : String
  target : Json
  start_at : Option Nat
  end_at : Option Nat
  deeplink_url : Option String
  created_at : Nat

/-- Row of the offers table (models.py, class Offer). -/
structure Offer where
  id : String
  tenant_id : String
  campaign_id : Option String
  type : String
  benefit : Json
  limits : Json
  applies_to : Json
  valid_from : Nat
  valid_to : Nat
  created_at : Nat

/-- Row of the vouchers table (models.py, class Voucher). -/
structure Voucher where
  id : String
  tenant_id : String
  offer_id : String
  user_id : String
  code : String
  state : String
  redemption_id : Option String
  issued_at : Nat
deriving DecidableEq

/-- Row of the push_notifications table (models.py, class PushNotification). -/
structure PushNotification where
  id : String
  tenant_id : String
  campaign_id : Option String
  payload : Json
  scheduled_at : Option Nat
  sent_at : Option Nat
  created_at : Nat

/-- Row of the redemptions table (models.py, class Redemption). -/
structure Redemption where
  id : String
  tenant_id : String
  offer_id : String
  user_id : Option String
  voucher_id : Option String
  pos_ref : Option String
  status : String
  reason : Option String
  redeemed_at : Nat
deriving DecidableEq

/-- Row of the transactions table (models.py, class Transaction). -/
structure Transaction where
  id : String
  tenant_id : String
  user_id : Option String
  pos_txn_id : String
  store_id : Option String
  purchased_at : Nat
  total_cents : Int
  currency : String
  lines : Json
  attribution : Json
  created_at : Nat
  redemption_id : Option String

/-- The relational store: one list of rows per table of models.py. -/
structure Store where
  tenants : List Tenant
  users : List User
  products : List Product
  campaigns : List Campaign
  offers : List Offer
  vouchers : List Voucher
  push_notifications : List PushNotification
  redemptions : List Redemption
  transactions : List Transaction

/-- The empty store. -/
def Store.empty : Store :=
  ⟨[], [], [], [], [], [], [], [], []⟩

def tenantExists (s : Store) (i : String) : Bool :=
  s.tenants.any (fun t => t.id == i)

def userExists (s : Store) (i : String) : Bool :=
  s.users.any (fun u => u.id == i)

def campaignExists (s : Store) (i : String) : Bool :=
  s.campaigns.any (fun c => c.id == i)

def offerExists (s : Store) (i : String) : Bool :=
  s.offers.any (fun o => o.id == i)

def voucherExists (s : Store) (i : String) : Bool :=
  s.vouchers.any (fun v => v.id == i)

def redemptionExists (s : Store) (i : String) : Bool :=
  s.redemptions.any (fun r => r.id == i)

/-- A nullable foreign-key column is satisfied when it is NULL or its
target row exists. -/
def optFK (check : String → Bool) : Option String → Bool
  | none => true
  | some i => check i

/-- Modelled from the spec: create-record for the tenants table.  The
storage engine is absent from the source; uniqueness of `id`
(primary_key=True) and `name` (unique=True, models.py line 52) are the
declared constraints, and the spec mandates that a violating write fails
atomically with UniquenessViolation. -/
def insertTenant (s : Store) (t : Tenant) : Except DBError Store :=
  if s.tenants.any (fun t2 => t2.id == t.id) then
    .error .UniquenessViolation
  else if s.tenants.any (fun t2 => t2.name == t.name) then
    .error .UniquenessViolation
  else
    .ok { s with tenants := s.tenants ++ [t] }

/-- Modelled from the spec: create-record for the users table.  Declared
constraints: primary key `id`, foreign key `tenant_id` (models.py
line 67). -/
def insertUser (s : Store) (u : User) : Except DBError Store :=
  if s.users.any (fun u2 => u2.id == u.id) then
    .error .UniquenessViolation
  else if tenantExists s u.tenant_id then
    .ok { s with users := s.users ++ [u] }
  else
    .error .ReferentialIntegrityViolation

/-- Modelled from the spec: create-record for the products table.
Declared constraints: primary key `id`, UniqueConstraint("tenant_id",
"sku") (models.py lines 92 to 94), foreign key `tenant_id`. -/
def insertProduct (s : Store) (p : Product) : Except DBError Store :=
  if s.products.any (fun p2 => p2.id == p.id) then
    .error .UniquenessViolation
  else if s.products.any (fun p2 => p2.tenant_id == p.tenant_id && p2.sku == p.sku) then
    .error .UniquenessViolation
  else if tenantExists s p.tenant_id then
    .ok { s with products := s.products ++ [p] }
  else
    .error .ReferentialIntegrityViolation

/-- Modelled from the spec: create-record for the campaigns table.
Declared constraints: primary key `id`, foreign key `tenant_id`. -/
def insertCampaign (s : Store) (c : Campaign) : Except DBError Store :=
  if s.campaigns.any (fun c2 => c2.id == c.id) then
    .error .UniquenessViolation
  else if tenantExists s c.tenant_id then
    .ok { s with campaigns := s.campaigns ++ [c] }
  else
    .error .ReferentialIntegrityViolation

/-- Modelled from the spec: create-record for the offers table.  Declared
constraints: primary key `id`, foreign keys `tenant_id` and nullable
`campaign_id` (models.py lines 119 to 120).  No constraint relates
valid_from and valid_to. -/
def insertOffer (s : Store) (o : Offer) : Except DBError Store :=
  if s.offers.any (fun o2 => o2.id == o.id) then
    .error .UniquenessViolation
  else if tenantExists s o.tenant_id && optFK (campaignExists s) o.campaign_id then
    .ok { s with offers := s.offers ++ [o] }
  else
    .error .ReferentialIntegrityViolation

/-- Modelled from the spec: create-record for the vouchers table.
Declared constraints: primary key `id`, unique `code` across the whole
table (unique=True, models.py line 141), foreign keys `tenant_id`,
`offer_id`, `user_id` and nullable `redemption_id`. -/
def insertVoucher (s : Store) (v : Voucher) : Except DBError Store :=
  if s.vouchers.any (fun v2 => v2.id == v.id) then
    .error .UniquenessViolation
  else if s.vouchers.any (fun v2 => v2.code == v.code) then
    .error .UniquenessViolation
  else if tenantExists s v.tenant_id && offerExists s v.offer_id &&
      userExists s v.user_id && optFK (redemptionExists s) v.redemption_id then
    .ok { s with vouchers := s.vouchers ++ [v] }
  else
    .error .ReferentialIntegrityViolation

/-- Modelled from the spec: create-record for the push_notifications
table.  Declared constraints: primary key `id`, foreign keys `tenant_id`
and nullable `campaign_id`. -/
def insertPushNotification (s : Store) (p : PushNotification) : Except DBError Store :=
  if s.push_notifications.any (fun p2 => p2.id == p.id) then
    .error .UniquenessViolation
  else if tenantExists s p.tenant_id && optFK (campaignExists s) p.campaign_id then
    .ok { s with push_notifications := s.push_notifications ++ [p] }
  else
    .error .ReferentialIntegrityViolation

/-- Modelled from the spec: create-record for the redemptions table.
Declared constraints: primary key `id`, foreign keys `tenant_id`,
`offer_id` and nullable `user_id`, `voucher_id`. -/
def insertRedemption (s : Store) (r : Redemption) : Except DBError Store :=
  if s.redemptions.any (fun r2 => r2.id == r.id) then
    .error .UniquenessViolation
  else if tenantExists s r.tenant_id && offerExists s r.offer_id &&
      optFK (userExists s) r.user_id && optFK (voucherExists s) r.voucher_id then
    .ok { s with redemptions := s.redemptions ++ [r] }
  else
    .error .ReferentialIntegrityViolation

/-- Modelled from the spec: create-record for the transactions table.
Declared constraints: primary key `id`, foreign keys `tenant_id` and
nullable `user_id`, `redemption_id`. -/
def insertTransaction (s : Store) (t : Transaction) : Except DBError Store :=
  if s.transactions.any (fun t2 => t2.id == t.id) then
    .error .UniquenessViolation
  else if tenantExists s t.tenant_id && optFK (userExists s) t.user_id &&
      optFK (redemptionExists s) t.redemption_id then
    .ok { s with transactions := s.transactions ++ [t] }
  else
    .error .ReferentialIntegrityViolation

/-- Modelled from the spec: the in-place update of Voucher.state and
Voucher.redemption_id used by the section-8 scenario.  The schema places
no constraint on the new state string; the nullable `redemption_id`
foreign key must still resolve. -/
def updateVoucherState (s : Store) (vid newState : String)
    (rid : Option String) : Except DBError Store :=
  if s.vouchers.any (fun v => v.id == vid) then
    if optFK (redemptionExists s) rid then
      .ok { s with vouchers := s.vouchers.map (fun v =>
        if v.id == vid then { v with state := newState, redemption_id := rid } else v) }
    else
      .error .ReferentialIntegrityViolation
  else
    .error .NotFound

/-- Fetch-by-id on the tenants table. -/
def fetchTenant (s : Store) (i : String) : Option Tenant :=
  s.tenants.find? (fun t => t.id == i)

/-- Fetch-by-id on the users table. -/
def fetchUser (s : Store) (i : String) : Option User :=
  s.users.find? (fun u => u.id == i)

/-- Fetch-by-id on the offers table. -/
def fetchOffer (s : Store) (i : String) : Option Offer :=
  s.offers.find? (fun o => o.id == i)

/-- Fetch-by-id on the vouchers table. -/
def fetchVoucher (s : Store) (i : String) : Option Voucher :=
  s.vouchers.find? (fun v => v.id == i)

/-- The write operations of the storage layer, used to talk about all
reachable store states at once. -/
inductive Op where
  | createTenant (t : Tenant) : Op
  | createUser (u : User) : Op
  | createProduct (p : Product) : Op
  | createCampaign (c : Campaign) : Op
  | createOffer (o : Offer) : Op
  | createVoucher (v : Voucher) : Op
  | createPushNotification (p : PushNotification) : Op
  | createRedemption (r : Redemption) : Op
  | createTransaction (t : Transaction) : Op
  | updVoucherState (vid newState : String) (rid : Option String) : Op

/-- Run one operation, returning the constraint error when it fails. -/
def applyOp (s : Store) : Op → Except DBError Store
  | .createTenant t => insertTenant s t
  | .createUser u => insertUser s u
  | .createProduct p => insertProduct s p
  | .createCampaign c => insertCampaign s c
  | .createOffer o => insertOffer s o
  | .createVoucher v => insertVoucher s v
  | .createPushNotification p => insertPushNotification s p
  | .createRedemption r => insertRedemption s r
  | .createTransaction t => insertTransaction s t
  | .updVoucherState vid st rid => updateVoucherState s vid st rid

/-- The store state after an operation: unchanged when the operation
failed (atomic failure, spec section 4.1). -/
def exec (s : Store) (op : Op) : Store :=
  match applyOp s op with
  | .ok s2 => s2
  | .error _ => s

/-- Run a sequence of operations. -/
def execOps (s : Store) (ops : List Op) : Store :=
  ops.foldl exec s

/-- Force the version nibble (bits 76 to 79) of a 128-bit integer to 4,
as Python uuid.UUID(version=4) does. -/
def setVersionBits (n : Nat) : Nat :=
  n / 2 ^ 80 * 2 ^ 80 + 4 * 2 ^ 76 + n % 2 ^ 76

/-- Force the variant bits (62 and 63) of a 128-bit integer to 10. -/
def setVariantBits (n : Nat) : Nat :=
  n / 2 ^ 64 * 2 ^ 64 + 2 * 2 ^ 62 + n % 2 ^ 62

/-- The 128-bit integer of a version-4 UUID built from 128 bits of
process-side randomness, as Python uuid.uuid4 does. -/
def uuid4Int (r : Nat) : Nat :=
  setVariantBits (setVersionBits (r % 2 ^ 128))

/-- Lowercase hexadecimal digit. -/
def hexChar (n : Nat) : Char :=
  if n < 10 then Char.ofNat (48 + n) else Char.ofNat (87 + n)

/-- The k lowest hexadecimal digits of n, most significant first,
zero-padded to width k. -/
def hexDigits : Nat → Nat → List Char
  | 0, _ => []
  | k + 1, n => hexDigits k (n / 16) ++ [hexChar (n % 16)]

/-- Canonical 8-4-4-4-12 hyphenated rendering of a 128-bit integer, as
Python str(uuid.UUID) produces. -/
def uuidString (n : Nat) : String :=
  let d := hexDigits 32 n
  String.mk (d.take 8 ++ ['-'] ++ ((d.drop 8).take 4) ++ ['-'] ++
    ((d.drop 12).take 4) ++ ['-'] ++ ((d.drop 16).take 4) ++ ['-'] ++ d.drop 20)

/-- models.py generate_uuid: str(uuid.uuid4()), with the process-side
randomness made an explicit 128-bit argument. -/
def generate_uuid (r : Nat) : String :=
  uuidString (uuid4Int r)

/-- Application-layer construction of a Tenant row with the column
defaults of models.py: id defaults to generate_uuid, created_at to the
current time. -/
def mkTenant (r : Nat) (name : String) (now : Nat) : Tenant :=
  ⟨generate_uuid r, name, now⟩

/-- Application-layer construction of a User row with the column defaults
of models.py: id generate_uuid, attributes dict, consent_push False,
consent_mktg False, created_at now.  A `none` argument means the caller
supplied no explicit value for that defaulted column. -/
def mkUser (r : Nat) (tenant_id : String) (email phone : Option String)
    (attributes : Option Json) (consent_push consent_mktg : Option Bool)
    (now : Nat) : User :=
  ⟨generate_uuid r, tenant_id, email, phone, attributes.getD (Json.obj []),
    consent_push.getD false, consent_mktg.getD false, now⟩

/-- Application-layer construction of a Product row with the column
defaults of models.py. -/
def mkProduct (r : Nat) (tenant_id sku name : String) (category : Option String)
    (price_cents : Int) (attributes : Option Json) (now : Nat) : Product :=
  ⟨generate_uuid r, tenant_id, sku, name, category, price_cents,
    attributes.getD (Json.obj []), now⟩

/-- Application-layer construction of a Campaign row with the column
defaults of models.py: status defaults to "draft", target to dict. -/
def mkCampaign (r : Nat) (tenant_id name : String) (status : Option String)
    (target : Option Json) (start_at end_at : Option Nat)
    (deeplink_url : Option String) (now : Nat) : Campaign :=
  ⟨generate_uuid r, tenant_id, name, status.getD "draft",
    target.getD (Json.obj []), start_at, end_at, deeplink_url, now⟩

/-- Application-layer construction of an Offer row with the column
defaults of models.py: limits defaults to dict, applies_to to list. -/
def mkOffer (r : Nat) (tenant_id : String) (campaign_id : Option String)
    (type : String) (benefit : Json) (limits applies_to : Option Json)
    (valid_from valid_to now : Nat) : Offer :=
  ⟨generate_uuid r, tenant_id, campaign_id, type, benefit,
    limits.getD (Json.obj []), applies_to.getD (Json.arr []), valid_from,
    valid_to, now⟩

/-- Application-layer construction of a Voucher row with the column
defaults of models.py: state defaults to "issued", issued_at to now. -/
def mkVoucher (r : Nat) (tenant_id offer_id user_id code : String)
    (state : Option String) (redemption_id : Option String) (now : Nat) : Voucher :=
  ⟨generate_uuid r, tenant_id, offer_id, user_id, code, state.getD "issued",
    redemption_id, now⟩

/-- Application-layer construction of a PushNotification row with the
column defaults of models.py. -/
def mkPushNotification (r : Nat) (tenant_id : String)
    (campaign_id : Option String) (payload : Json)
    (scheduled_at sent_at : Option Nat) (now : Nat) : PushNotification :=
  ⟨generate_uuid r, tenant_id, campaign_id, payload, scheduled_at, sent_at, now⟩

/-- Application-layer construction of a Redemption row with the column
defaults of models.py. -/
def mkRedemption (r : Nat) (tenant_id offer_id : String)
    (user_id voucher_id pos_ref : Option String) (status : String)
    (reason : Option String) (now : Nat) : Redemption :=
  ⟨generate_uuid r, tenant_id, offer_id, user_id, voucher_id, pos_ref,
    status, reason, now⟩

/-- Application-layer construction of a Transaction row with the column
defaults of models.py: currency defaults to "USD", attribution to dict. -/
def mkTransaction (r : Nat) (tenant_id : String) (user_id : Option String)
    (pos_txn_id : String) (store_id : Option String) (purchased_at : Nat)
    (total_cents : Int) (currency : Option String) (lines : Json)
    (attribution : Option Json) (now : Nat)
    (redemption_id : Option String) : Transaction :=
  ⟨generate_uuid r, tenant_id, user_id, pos_txn_id, store_id, purchased_at,
    total_cents, currency.getD "USD", lines, attribution.getD (Json.obj []),
    now, redemption_id⟩

/-- A list whose elements all map to strings different from x has no
successful == test against x. -/
lemma any_beq_eq_false {α : Type} (f : α → String) (l : List α) (x : String)
    (h : ∀ y ∈ l, f y ≠ x) : l.any (fun y => f y == x) = false := by
  rw [List.any_eq_false]
  intro y hy
  simp [h y hy]

/-- Converse direction: no successful == test means every element maps to
a different string. -/
lemma forall_ne_of_any_beq_eq_false {α : Type} (f : α → String) (l : List α)
    (x : String) (h : l.any (fun y => f y == x) = false) :
    ∀ y ∈ l, (f y == x) = false := by
  intro y hy
  have := List.any_eq_false.mp h y hy
  simpa using this

/-- find? over an appended singleton returns the appended element when no
earlier element satisfies the predicate. -/
lemma find_append_singleton {α : Type} (p : α → Bool) (l : List α) (x : α)
    (hl : ∀ y ∈ l, p y = false) (hx : p x = true) :
    (l ++ [x]).find? p = some x := by
  induction l with
  | nil => simp [List.find?, hx]
  | cons a as ih =>
    have ha : p a = false := hl a (by simp)
    simp only [List.cons_append, List.find?, ha]
    exact ih (fun y hy => hl y (by simp [hy]))

/-- Inversion of a successful tenant insert. -/
lemma insertTenant_inv {s : Store} {t : Tenant} {s2 : Store}
    (h : insertTenant s t = .ok s2) :
    s.tenants.any (fun t2 => t2.id == t.id) = false ∧
    s.tenants.any (fun t2 => t2.name == t.name) = false ∧
    s2 = { s with tenants := s.tenants ++ [t] } := by
  unfold insertTenant at h
  split at h
  · exact Except.noConfusion h
  · rename_i h1
    split at h
    · exact Except.noConfusion h
    · rename_i h2
      cases h
      exact ⟨by simpa using h1, by simpa using h2, rfl⟩

/-- Inversion of a successful user insert. -/
lemma insertUser_inv {s : Store} {u : User} {s2 : Store}
    (h : insertUser s u = .ok s2) :
    s.users.any (fun u2 => u2.id == u.id) = false ∧
    tenantExists s u.tenant_id = true ∧
    s2 = { s with users := s.users ++ [u] } := by
  unfold insertUser at h
  split at h
  · exact Except.noConfusion h
  · rename_i h1
    split at h
    · rename_i h2
      cases h
      exact ⟨by simpa using h1, h2, rfl⟩
    · exact Except.noConfusion h

/-- Inversion of a successful product insert. -/
lemma insertProduct_inv {s : Store} {p : Product} {s2 : Store}
    (h : insertProduct s p = .ok s2) :
    s.products.any (fun p2 => p2.id == p.id) = false ∧
    s.products.any (fun p2 => p2.tenant_id == p.tenant_id && p2.sku == p.sku) = false ∧
    tenantExists s p.tenant_id = true ∧
    s2 = { s with products := s.products ++ [p] } := by
  unfold insertProduct at h
  split at h
  · exact Except.noConfusion h
  · rename_i h1
    split at h
    · exact Except.noConfusion h
    · rename_i h2
      split at h
      · rename_i h3
        cases h
        exact ⟨by simpa using h1, by simpa using h2, h3, rfl⟩
      · exact Except.noConfusion h

/-- Inversion of a successful campaign insert. -/
lemma insertCampaign_inv {s : Store} {c : Campaign} {s2 : Store}
    (h : insertCampaign s c = .ok s2) :
    s.campaigns.any (fun c2 => c2.id == c.id) = false ∧
    tenantExists s c.tenant_id = true ∧
    s2 = { s with campaigns := s.campaigns ++ [c] } := by
  unfold insertCampaign at h
  split at h
  · exact Except.noConfusion h
  · rename_i h1
    split at h
    · rename_i h2
      cases h
      exact ⟨by simpa using h1, h2, rfl⟩
    · exact Except.noConfusion h

/-- Inversion of a successful offer insert. -/
lemma insertOffer_inv {s : Store} {o : Offer} {s2 : Store}
    (h : insertOffer s o = .ok s2) :
    s.offers.any (fun o2 => o2.id == o.id) = false ∧
    (tenantExists s o.tenant_id && optFK (campaignExists s) o.campaign_id) = true ∧
    s2 = { s with offers := s.offers ++ [o] } := by
  unfold insertOffer at h
  split at h
  · exact Except.noConfusion h
  · rename_i h1
    split at h
    · rename_i h2
      cases h
      exact ⟨by simpa using h1, h2, rfl⟩
    · exact Except.noConfusion h

/-- Inversion of a successful voucher insert. -/
lemma insertVoucher_inv {s : Store} {v : Voucher} {s2 : Store}
    (h : insertVoucher s v = .ok s2) :
    s.vouchers.any (fun v2 => v2.id == v.id) = false ∧
    s.vouchers.any (fun v2 => v2.code == v.code) = false ∧
    (tenantExists s v.tenant_id && offerExists s v.offer_id &&
      userExists s v.user_id && optFK (redemptionExists s) v.redemption_id) = true ∧
    s2 = { s with vouchers := s.vouchers ++ [v] } := by
  unfold insertVoucher at h
  split at h
  · exact Except.noConfusion h
  · rename_i h1
    split at h
    · exact Except.noConfusion h
    · rename_i h2
      split at h
      · rename_i h3
        cases h
        exact ⟨by simpa using h1, by simpa using h2, h3, rfl⟩
      · exact Except.noConfusion h

/-- Inversion of a successful push-notification insert. -/
lemma insertPushNotification_inv {s : Store} {p : PushNotification} {s2 : Store}
    (h : insertPushNotification s p = .ok s2) :
    s.push_notifications.any (fun p2 => p2.id == p.id) = false ∧
    (tenantExists s p.tenant_id && optFK (campaignExists s) p.campaign_id) = true ∧
    s2 = { s with push_notifications := s.push_notifications ++ [p] } := by
  unfold insertPushNotification at h
  split at h
  · exact Except.noConfusion h
  · rename_i h1
    split at h
    · rename_i h2
      cases h
      exact ⟨by simpa using h1, h2, rfl⟩
    · exact Except.noConfusion h

/-- Inversion of a successful redemption insert. -/
lemma insertRedemption_inv {s : Store} {r : Redemption} {s2 : Store}
    (h : insertRedemption s r = .ok s2) :
    s.redemptions.any (fun r2 => r2.id == r.id) = false ∧
    (tenantExists s r.tenant_id && offerExists s r.offer_id &&
      optFK (userExists s) r.user_id && optFK (voucherExists s) r.voucher_id) = true ∧
    s2 = { s with redemptions := s.redemptions ++ [r] } := by
  unfold insertRedemption at h
  split at h
  · exact Except.noConfusion h
  · rename_i h1
    split at h
    · rename_i h2
      cases h
      exact ⟨by simpa using h1, h2, rfl⟩
    · exact Except.noConfusion h

/-- Inversion of a successful transaction insert. -/
lemma insertTransaction_inv {s : Store} {t : Transaction} {s2 : Store}
    (h : insertTransaction s t = .ok s2) :
    s.transactions.any (fun t2 => t2.id == t.id) = false ∧
    (tenantExists s t.tenant_id && optFK (userExists s) t.user_id &&
      optFK (redemptionExists s) t.redemption_id) = true ∧
    s2 = { s with transactions := s.transactions ++ [t] } := by
  unfold insertTransaction at h
  split at h
  · exact Except.noConfusion h
  · rename_i h1
    split at h
    · rename_i h2
      cases h
      exact ⟨by simpa using h1, h2, rfl⟩
    · exact Except.noConfusion h

/-- Inversion of a successful voucher state update. -/
lemma updateVoucherState_inv {s : Store} {vid st : String} {rid : Option String}
    {s2 : Store} (h : updateVoucherState s vid st rid = .ok s2) :
    s2 = { s with vouchers := s.vouchers.map (fun v =>
      if v.id == vid then { v with state := st, redemption_id := rid } else v) } := by
  unfold updateVoucherState at h
  split at h
  · split at h
    · cases h
      rfl
    · exact Except.noConfusion h
  · exact Except.noConfusion h

/-- Concrete fixture: tenant "Acme". -/
def demoTenant : Tenant := ⟨"t1", "Acme", 0⟩

/-- Concrete fixture: a second tenant. -/
def demoTenant2 : Tenant := ⟨"t2", "Globex", 0⟩

/-- Concrete fixture: a user of tenant t1. -/
def demoUser : User := ⟨"u1", "t1", none, none, Json.obj [], false, false, 0⟩

/-- Concrete fixture: a product of tenant t1. -/
def demoProduct : Product := ⟨"p1", "t1", "SKU1", "Widget", none, 100, Json.obj [], 0⟩

/-- Concrete fixture: an offer of tenant t1 with a structured benefit. -/
def demoOffer : Offer :=
  ⟨"o1", "t1", none, "personal",
    Json.obj [("kind", Json.str "percentage"), ("value", Json.num 15)],
    Json.obj [], Json.arr [], 0, 10, 0⟩

/-- Concrete fixture: an issued voucher of tenant t1 with code ACME-001. -/
def demoVoucher : Voucher := ⟨"v1", "t1", "o1", "u1", "ACME-001", "issued", none, 0⟩

/-- Concrete fixture: a store holding two tenants, one user, one product,
one offer and one voucher. -/
def demoStore : Store :=
  ⟨[demoTenant, demoTenant2], [demoUser], [demoProduct], [], [demoOffer],
    [demoVoucher], [], [], []⟩

/-- Concrete fixture: demoStore restricted to its tenants, for
insert-then-fetch round trips. -/
def demoBase : Store :=
  ⟨[demoTenant, demoTenant2], [], [], [], [], [], [], [], []⟩

/-- Claim C1: voucher codes are globally unique.  Creating a Voucher whose
code equals the code of any voucher already in the store fails with
UniquenessViolation, whatever the tenants of the two vouchers are. -/
theorem voucher_code_globally_unique (s : Store) (v : Voucher)
    (h : ∃ v2 ∈ s.vouchers, v2.code = v.code) :
    insertVoucher s v = .error .UniquenessViolation := by
  have hcode : s.vouchers.any (fun v2 => v2.code == v.code) = true := by
    rcases h with ⟨v2, hmem, heq⟩
    exact List.any_eq_true.mpr ⟨v2, hmem, beq_iff_eq.mpr heq⟩
  unfold insertVoucher
  split
  · rfl
  · simp [hcode]

/-- Witness for C1: duplicating code ACME-001 under the other tenant is
rejected. -/
theorem voucher_code_globally_unique_witness :
    (∃ v2 ∈ demoStore.vouchers,
      v2.code = (⟨"v2", "t2", "o1", "u1", "ACME-001", "issued", none, 0⟩ : Voucher).code) ∧
    insertVoucher demoStore ⟨"v2", "t2", "o1", "u1", "ACME-001", "issued", none, 0⟩ =
      .error .UniquenessViolation := by
  have h : ∃ v2 ∈ demoStore.vouchers,
      v2.code = (⟨"v2", "t2", "o1", "u1", "ACME-001", "issued", none, 0⟩ : Voucher).code :=
    ⟨demoVoucher, by decide, rfl⟩
  exact ⟨h, voucher_code_globally_unique demoStore _ h⟩

/-- Claim C2: tenant names are unique.  Creating a Tenant whose name
matches an existing tenant fails with UniquenessViolation. -/
theorem tenant_name_unique (s : Store) (t : Tenant)
    (h : ∃ t2 ∈ s.tenants, t2.name = t.name) :
    insertTenant s t = .error .UniquenessViolation := by
  have hname : s.tenants.any (fun t2 => t2.name == t.name) = true := by
    rcases h with ⟨t2, hmem, heq⟩
    exact List.any_eq_true.mpr ⟨t2, hmem, beq_iff_eq.mpr heq⟩
  unfold insertTenant
  split
  · rfl
  · simp [hname]

/-- Witness for C2: a second tenant named Acme is rejected. -/
theorem tenant_name_unique_witness :
    (∃ t2 ∈ demoStore.tenants, t2.name = (⟨"t9", "Acme", 5⟩ : Tenant).name) ∧
    insertTenant demoStore ⟨"t9", "Acme", 5⟩ = .error .UniquenessViolation := by
  have h : ∃ t2 ∈ demoStore.tenants, t2.name = (⟨"t9", "Acme", 5⟩ : Tenant).name :=
    ⟨demoTenant, by decide, rfl⟩
  exact ⟨h, tenant_name_unique demoStore _ h⟩

/-- Claim C5: failure atomicity.  When any create-record or update
operation fails with a constraint error, the store state after the
operation equals the state before it: no partial write. -/
theorem failed_write_leaves_store_unchanged (s : Store) (op : Op) (e : DBError)
    (h : applyOp s op = .error e) : exec s op = s := by
  unfold exec
  rw [h]

/-- Witness for C5: the rejected duplicate-name tenant create leaves the
store untouched. -/
theorem failed_write_leaves_store_unchanged_witness :
    applyOp demoStore (Op.createTenant ⟨"t9", "Acme", 5⟩) =
      .error .UniquenessViolation ∧
    exec demoStore (Op.createTenant ⟨"t9", "Acme", 5⟩) = demoStore := by
  have h : applyOp demoStore (Op.createTenant ⟨"t9", "Acme", 5⟩) =
      .error .UniquenessViolation := rfl
  exact ⟨h, failed_write_leaves_store_unchanged demoStore _ .UniquenessViolation h⟩

/-- Claim C3: product uniqueness is scoped per tenant.  A second Product
with the same (tenant_id, sku) pair fails with UniquenessViolation, while
a Product reusing the sku under a different tenant succeeds (given a fresh
primary key and an existing tenant). -/
theorem product_uniqueness_per_tenant :
    (∀ (s : Store) (p : Product),
      (∃ p2 ∈ s.products, p2.tenant_id = p.tenant_id ∧ p2.sku = p.sku) →
      insertProduct s p = .error .UniquenessViolation) ∧
    (∀ (s : Store) (p : Product),
      (∀ p2 ∈ s.products, p2.id ≠ p.id) →
      tenantExists s p.tenant_id = true →
      (∀ p2 ∈ s.products, ¬(p2.tenant_id = p.tenant_id ∧ p2.sku = p.sku)) →
      insertProduct s p = .ok { s with products := s.products ++ [p] }) := by
  constructor
  · intro s p h
    have hpair : s.products.any
        (fun p2 => p2.tenant_id == p.tenant_id && p2.sku == p.sku) = true := by
      rcases h with ⟨p2, hmem, ht, hs⟩
      exact List.any_eq_true.mpr ⟨p2, hmem, by simp [ht, hs]⟩
    unfold insertProduct
    split
    · rfl
    · simp [hpair]
  · intro s p hid htenant hpair
    have h1 : s.products.any (fun p2 => p2.id == p.id) = false :=
      any_beq_eq_false Product.id s.products p.id hid
    have h2 : s.products.any
        (fun p2 => p2.tenant_id == p.tenant_id && p2.sku == p.sku) = false := by
      rw [List.any_eq_false]
      intro p2 hmem
      rcases not_and_or.mp (hpair p2 hmem) with h | h <;> simp [h]
    unfold insertProduct
    simp [h1, h2, htenant]

/-- Witness for C3: a duplicate (t1, SKU1) product is rejected, while
tenant t2 reuses SKU1 successfully. -/
theorem product_uniqueness_per_tenant_witness :
    insertProduct demoStore ⟨"p2", "t1", "SKU1", "Gadget", none, 50, Json.obj [], 0⟩ =
      .error .UniquenessViolation ∧
    insertProduct demoStore ⟨"p2", "t2", "SKU1", "Gadget", none, 50, Json.obj [], 0⟩ =
      .ok { demoStore with products := demoStore.products ++
        [⟨"p2", "t2", "SKU1", "Gadget", none, 50, Json.obj [], 0⟩] } := by
  constructor
  · exact product_uniqueness_per_tenant.1 demoStore _
      ⟨demoProduct, show demoProduct ∈ [demoProduct] from List.mem_singleton.mpr rfl,
        rfl, rfl⟩
  · refine product_uniqueness_per_tenant.2 demoStore _ ?_ rfl ?_
    · intro p2 hp2
      rw [show demoStore.products = [demoProduct] from rfl] at hp2
      rw [List.mem_singleton.mp hp2]
      decide
    · intro p2 hp2
      rw [show demoStore.products = [demoProduct] from rfl] at hp2
      rw [List.mem_singleton.mp hp2]
      intro hc
      exact absurd hc.1 (by decide)

/-- Claim C4: referential integrity on voucher creation.  When the
uniqueness constraints are met but offer_id or user_id resolves to no
existing row, the create fails with ReferentialIntegrityViolation. -/
theorem voucher_referential_integrity (s : Store) (v : Voucher)
    (hid : ∀ v2 ∈ s.vouchers, v2.id ≠ v.id)
    (hcode : ∀ v2 ∈ s.vouchers, v2.code ≠ v.code)
    (h : offerExists s v.offer_id = false ∨ userExists s v.user_id = false) :
    insertVoucher s v = .error .ReferentialIntegrityViolation := by
  have h1 : s.vouchers.any (fun v2 => v2.id == v.id) = false :=
    any_beq_eq_false Voucher.id s.vouchers v.id hid
  have h2 : s.vouchers.any (fun v2 => v2.code == v.code) = false :=
    any_beq_eq_false Voucher.code s.vouchers v.code hcode
  unfold insertVoucher
  rcases h with h | h <;> simp [h1, h2, h]

/-- Witness for C4: a voucher naming a nonexistent offer is rejected with
a referential-integrity error. -/
theorem voucher_referential_integrity_witness :
    offerExists demoStore "oMISSING" = false ∧
    insertVoucher demoStore ⟨"v9", "t1", "oMISSING", "u1", "NEW-1", "issued", none, 0⟩ =
      .error .ReferentialIntegrityViolation := by
  refine ⟨by decide, ?_⟩
  exact voucher_referential_integrity demoStore _
    (by decide) (by decide) (Or.inl (by decide))

/-- Claim C6: structured-data round trip.  An Offer successfully written
and then fetched by id comes back whole; in particular its schemaless
benefit field is structurally identical to the value written. -/
theorem offer_roundtrip (s : Store) (o : Offer) (s2 : Store)
    (h : insertOffer s o = .ok s2) :
    fetchOffer s2 o.id = some o ∧
    (fetchOffer s2 o.id).map Offer.benefit = some o.benefit := by
  obtain ⟨hpk, _, hs2⟩ := insertOffer_inv h
  subst hs2
  have hfind : (s.offers ++ [o]).find? (fun o2 => o2.id == o.id) = some o :=
    find_append_singleton _ s.offers o
      (forall_ne_of_any_beq_eq_false Offer.id s.offers o.id hpk)
      (by simp)
  refine ⟨hfind, ?_⟩
  rw [show fetchOffer { s with offers := s.offers ++ [o] } o.id =
    (s.offers ++ [o]).find? (fun o2 => o2.id == o.id) from rfl, hfind]
  rfl

/-- Witness for C6: the percentage-15 benefit written with demoOffer is
read back unchanged. -/
theorem offer_roundtrip_witness :
    insertOffer demoBase demoOffer = .ok { demoBase with offers := [demoOffer] } ∧
    (fetchOffer { demoBase with offers := [demoOffer] } demoOffer.id).map Offer.benefit =
      some (Json.obj [("kind", Json.str "percentage"), ("value", Json.num 15)]) := by
  have h : insertOffer demoBase demoOffer = .ok { demoBase with offers := [demoOffer] } :=
    rfl
  exact ⟨h, (offer_roundtrip demoBase demoOffer _ h).2⟩

/-- The four documented voucher lifecycle values (models.py line 142
comment). -/
def voucherStateEnum : List String := ["issued", "redeemed", "expired", "void"]

/-- An operation supplies only documented voucher states: the state of a
created voucher, or the new state of an in-place update, lies in the
enumeration.  Other operations never touch a voucher state. -/
def opStateOk : Op → Prop
  | .createVoucher v => v.state ∈ voucherStateEnum
  | .updVoucherState _ st _ => st ∈ voucherStateEnum
  | _ => True

/-- Every voucher of the store carries a documented lifecycle state. -/
def storeStatesOk (s : Store) : Prop :=
  ∀ v ∈ s.vouchers, v.state ∈ voucherStateEnum

/-- One step preserves the voucher-state invariant when the step supplies
only documented states. -/
lemma exec_storeStatesOk (s : Store) (op : Op) (hs : storeStatesOk s)
    (hop : opStateOk op) : storeStatesOk (exec s op) := by
  unfold exec
  cases hap : applyOp s op with
  | error e => exact hs
  | ok s2 =>
    cases op with
    | createTenant t =>
      intro v hv
      rw [(insertTenant_inv hap).2.2] at hv
      exact hs v hv
    | createUser u =>
      intro v hv
      rw [(insertUser_inv hap).2.2] at hv
      exact hs v hv
    | createProduct p =>
      intro v hv
      rw [(insertProduct_inv hap).2.2.2] at hv
      exact hs v hv
    | createCampaign c =>
      intro v hv
      rw [(insertCampaign_inv hap).2.2] at hv
      exact hs v hv
    | createOffer o =>
      intro v hv
      rw [(insertOffer_inv hap).2.2] at hv
      exact hs v hv
    | createVoucher v2 =>
      intro v hv
      rw [(insertVoucher_inv hap).2.2.2] at hv
      simp only [List.mem_append, List.mem_singleton] at hv
      rcases hv with hv | rfl
      · exact hs v hv
      · exact hop
    | createPushNotification p =>
      intro v hv
      rw [(insertPushNotification_inv hap).2.2] at hv
      exact hs v hv
    | createRedemption r =>
      intro v hv
      rw [(insertRedemption_inv hap).2.2] at hv
      exact hs v hv
    | createTransaction t =>
      intro v hv
      rw [(insertTransaction_inv hap).2.2] at hv
      exact hs v hv
    | updVoucherState vid st rid =>
      intro v hv
      rw [updateVoucherState_inv hap] at hv
      simp only [List.mem_map] at hv
      rcases hv with ⟨w, hw, rfl⟩
      by_cases hcond : (w.id == vid) = true
      · simp only [hcond, if_true]
        exact hop
      · simp only [hcond, if_false, Bool.false_eq_true]
        exact hs w hw

/-- Concrete fixture: a voucher whose state string is outside the
documented lifecycle values. -/
def bogusVoucher : Voucher := ⟨"vB", "t1", "o1", "u1", "BAD-1", "bogus", none, 0⟩

/-- Counterexample for C7: the schema stores Voucher.state as an
unconstrained string, so a create supplying the state "bogus" succeeds
and the resulting reachable store holds a voucher whose state is none of
issued, redeemed, expired, void. -/
theorem voucher_state_enum_counterexample :
    insertVoucher demoStore bogusVoucher =
      .ok { demoStore with vouchers := [demoVoucher, bogusVoucher] } ∧
    bogusVoucher ∈ ({ demoStore with
      vouchers := [demoVoucher, bogusVoucher] } : Store).vouchers ∧
    bogusVoucher.state ∉ voucherStateEnum :=
  ⟨rfl, by decide, by decide⟩

/-- Claim C7 as amended: Voucher.state is a plain string column (default
"issued") with no schema-side restriction; whenever the initial store and
every create or update supply only the four documented values, every
voucher in the resulting reachable store carries one of them. -/
theorem voucher_state_enum_amended (s : Store) (ops : List Op)
    (hs : storeStatesOk s) (hops : ∀ op ∈ ops, opStateOk op) :
    storeStatesOk (execOps s ops) := by
  induction ops generalizing s with
  | nil => exact hs
  | cons op rest ih =>
    have h1 : storeStatesOk (exec s op) :=
      exec_storeStatesOk s op hs (hops op (by simp))
    exact ih (exec s op) h1 (fun o ho => hops o (by simp [ho]))

/-- Concrete fixture: the section-8 scenario trace, issuing then redeeming
voucher v1. -/
def demoOps : List Op :=
  [Op.createTenant demoTenant, Op.createUser demoUser, Op.createOffer demoOffer,
    Op.createVoucher demoVoucher, Op.updVoucherState "v1" "redeemed" none]

/-- Witness for the amended C7: running the scenario trace from the empty
store keeps every voucher state inside the documented enumeration. -/
theorem voucher_state_enum_amended_witness :
    storeStatesOk Store.empty ∧ (∀ op ∈ demoOps, opStateOk op) ∧
    storeStatesOk (execOps Store.empty demoOps) := by
  have h1 : storeStatesOk Store.empty := by
    intro v hv
    simp [Store.empty] at hv
  have h2 : ∀ op ∈ demoOps, opStateOk op := by
    intro op hop
    fin_cases hop <;> simp [opStateOk, voucherStateEnum, demoVoucher]
  exact ⟨h1, h2, voucher_state_enum_amended Store.empty demoOps h1 h2⟩

/-- Pairwise-distinct keys under a key projection. -/
def idsDistinct {α : Type} (f : α → String) (l : List α) : Prop :=
  l.Pairwise (fun a b => f a ≠ f b)

/-- Every table of the store has pairwise-distinct primary keys. -/
def allIdsDistinct (s : Store) : Prop :=
  idsDistinct Tenant.id s.tenants ∧ idsDistinct User.id s.users ∧
  idsDistinct Product.id s.products ∧ idsDistinct Campaign.id s.campaigns ∧
  idsDistinct Offer.id s.offers ∧ idsDistinct Voucher.id s.vouchers ∧
  idsDistinct PushNotification.id s.push_notifications ∧
  idsDistinct Redemption.id s.redemptions ∧
  idsDistinct Transaction.id s.transactions

/-- Appending a row whose key clashes with no stored row keeps keys
pairwise distinct. -/
lemma idsDistinct_append {α : Type} (f : α → String) (l : List α) (x : α)
    (h : idsDistinct f l) (hx : l.any (fun y => f y == f x) = false) :
    idsDistinct f (l ++ [x]) := by
  unfold idsDistinct at h ⊢
  rw [List.pairwise_append]
  refine ⟨h, List.pairwise_singleton _ _, ?_⟩
  intro a ha b hb
  rw [List.mem_singleton] at hb
  subst hb
  exact beq_eq_false_iff_ne.mp (forall_ne_of_any_beq_eq_false f l (f b) hx a ha)

/-- A key-preserving row rewrite keeps keys pairwise distinct. -/
lemma idsDistinct_map {α : Type} (f : α → String) (g : α → α) (l : List α)
    (hg : ∀ a, f (g a) = f a) (h : idsDistinct f l) : idsDistinct f (l.map g) := by
  unfold idsDistinct at h ⊢
  exact List.Pairwise.map g (fun a b hab => by rw [hg a, hg b]; exact hab) h

/-- Every storage operation preserves pairwise-distinct primary keys in
all nine tables. -/
lemma exec_allIdsDistinct (s : Store) (op : Op) (hd : allIdsDistinct s) :
    allIdsDistinct (exec s op) := by
  unfold exec
  cases hap : applyOp s op with
  | error e => exact hd
  | ok s2 =>
    cases op with
    | createTenant t =>
      obtain ⟨hpk, _, hs2⟩ := insertTenant_inv hap
      subst hs2
      exact ⟨idsDistinct_append _ _ _ hd.1 hpk, hd.2.1, hd.2.2.1, hd.2.2.2.1,
        hd.2.2.2.2.1, hd.2.2.2.2.2.1, hd.2.2.2.2.2.2.1, hd.2.2.2.2.2.2.2.1,
        hd.2.2.2.2.2.2.2.2⟩
    | createUser u =>
      obtain ⟨hpk, _, hs2⟩ := insertUser_inv hap
      subst hs2
      exact ⟨hd.1, idsDistinct_append _ _ _ hd.2.1 hpk, hd.2.2.1, hd.2.2.2.1,
        hd.2.2.2.2.1, hd.2.2.2.2.2.1, hd.2.2.2.2.2.2.1, hd.2.2.2.2.2.2.2.1,
        hd.2.2.2.2.2.2.2.2⟩
    | createProduct p =>
      obtain ⟨hpk, _, _, hs2⟩ := insertProduct_inv hap
      subst hs2
      exact ⟨hd.1, hd.2.1, idsDistinct_append _ _ _ hd.2.2.1 hpk, hd.2.2.2.1,
        hd.2.2.2.2.1, hd.2.2.2.2.2.1, hd.2.2.2.2.2.2.1, hd.2.2.2.2.2.2.2.1,
        hd.2.2.2.2.2.2.2.2⟩
    | createCampaign c =>
      obtain ⟨hpk, _, hs2⟩ := insertCampaign_inv hap
      subst hs2
      exact ⟨hd.1, hd.2.1, hd.2.2.1, idsDistinct_append _ _ _ hd.2.2.2.1 hpk,
        hd.2.2.2.2.1, hd.2.2.2.2.2.1, hd.2.2.2.2.2.2.1, hd.2.2.2.2.2.2.2.1,
        hd.2.2.2.2.2.2.2.2⟩
    | createOffer o =>
      obtain ⟨hpk, _, hs2⟩ := insertOffer_inv hap
      subst hs2
      exact ⟨hd.1, hd.2.1, hd.2.2.1, hd.2.2.2.1,
        idsDistinct_append _ _ _ hd.2.2.2.2.1 hpk, hd.2.2.2.2.2.1,
        hd.2.2.2.2.2.2.1, hd.2.2.2.2.2.2.2.1, hd.2.2.2.2.2.2.2.2⟩
    | createVoucher v =>
      obtain ⟨hpk, _, _, hs2⟩ := insertVoucher_inv hap
      subst hs2
      exact ⟨hd.1, hd.2.1, hd.2.2.1, hd.2.2.2.1, hd.2.2.2.2.1,
        idsDistinct_append _ _ _ hd.2.2.2.2.2.1 hpk, hd.2.2.2.2.2.2.1,
        hd.2.2.2.2.2.2.2.1, hd.2.2.2.2.2.2.2.2⟩
    | createPushNotification p =>
      obtain ⟨hpk, _, hs2⟩ := insertPushNotification_inv hap
      subst hs2
      exact ⟨hd.1, hd.2.1, hd.2.2.1, hd.2.2.2.1, hd.2.2.2.2.1, hd.2.2.2.2.2.1,
        idsDistinct_append _ _ _ hd.2.2.2.2.2.2.1 hpk, hd.2.2.2.2.2.2.2.1,
        hd.2.2.2.2.2.2.2.2⟩
    | createRedemption r =>
      obtain ⟨hpk, _, hs2⟩ := insertRedemption_inv hap
      subst hs2
      exact ⟨hd.1, hd.2.1, hd.2.2.1, hd.2.2.2.1, hd.2.2.2.2.1, hd.2.2.2.2.2.1,
        hd.2.2.2.2.2.2.1, idsDistinct_append _ _ _ hd.2.2.2.2.2.2.2.1 hpk,
        hd.2.2.2.2.2.2.2.2⟩
    | createTransaction t =>
      obtain ⟨hpk, _, hs2⟩ := insertTransaction_inv hap
      subst hs2
      exact ⟨hd.1, hd.2.1, hd.2.2.1, hd.2.2.2.1, hd.2.2.2.2.1, hd.2.2.2.2.2.1,
        hd.2.2.2.2.2.2.1, hd.2.2.2.2.2.2.2.1,
        idsDistinct_append _ _ _ hd.2.2.2.2.2.2.2.2 hpk⟩
    | updVoucherState vid st rid =>
      have hs2 := updateVoucherState_inv hap
      subst hs2
      exact ⟨hd.1, hd.2.1, hd.2.2.1, hd.2.2.2.1, hd.2.2.2.2.1,
        idsDistinct_map _ _ _ (fun a => by split <;> rfl) hd.2.2.2.2.2.1,
        hd.2.2.2.2.2.2.1, hd.2.2.2.2.2.2.2.1, hd.2.2.2.2.2.2.2.2⟩

/-- Forcing the version nibble keeps the integer inside 128 bits. -/
lemma setVersionBits_lt {n : Nat} (h : n < 2 ^ 128) : setVersionBits n < 2 ^ 128 := by
  unfold setVersionBits
  have h128 : (2 : Nat) ^ 128 = 340282366920938463463374607431768211456 := by norm_num
  have h80 : (2 : Nat) ^ 80 = 1208925819614629174706176 := by norm_num
  have h76 : (2 : Nat) ^ 76 = 75557863725914323419136 := by norm_num
  rw [h128] at h ⊢
  rw [h80, h76]
  omega

/-- Forcing the variant bits keeps the integer inside 128 bits. -/
lemma setVariantBits_lt {n : Nat} (h : n < 2 ^ 128) : setVariantBits n < 2 ^ 128 := by
  unfold setVariantBits
  have h128 : (2 : Nat) ^ 128 = 340282366920938463463374607431768211456 := by norm_num
  have h64 : (2 : Nat) ^ 64 = 18446744073709551616 := by norm_num
  have h62 : (2 : Nat) ^ 62 = 4611686018427387904 := by norm_num
  rw [h128] at h ⊢
  rw [h64, h62]
  omega

/-- The forced version and variant bits keep the UUID integer inside 128
bits. -/
lemma uuid4Int_lt (r : Nat) : uuid4Int r < 2 ^ 128 := by
  unfold uuid4Int
  exact setVariantBits_lt (setVersionBits_lt (Nat.mod_lt _ (by norm_num)))

/-- hexDigits always produces exactly its requested width. -/
lemma hexDigits_length (k n : Nat) : (hexDigits k n).length = k := by
  induction k generalizing n with
  | zero => rfl
  | succ k ih => simp [hexDigits, ih]

/-- The canonical rendering of any 128-bit integer is 36 characters,
8-4-4-4-12 with hyphens. -/
lemma uuidString_length (n : Nat) : (uuidString n).length = 36 := by
  unfold uuidString
  simp [String.length, hexDigits_length]

/-- Claim C8: primary-key generation.  Every application-layer constructor
assigns the new row the id generate_uuid r, the string rendering of a
128-bit value produced by the owning process; a rendered key is 36
characters; and every storage operation keeps primary keys unique within
each table of the store. -/
theorem primary_key_generation :
    (∀ (s : Store) (op : Op), allIdsDistinct s → allIdsDistinct (exec s op)) ∧
    (∀ r, uuid4Int r < 2 ^ 128) ∧
    (∀ r, (generate_uuid r).length = 36) ∧
    (∀ r name now, (mkTenant r name now).id = generate_uuid r) ∧
    (∀ r tid email phone attrs cp cm now,
      (mkUser r tid email phone attrs cp cm now).id = generate_uuid r) ∧
    (∀ r tid sku name cat price attrs now,
      (mkProduct r tid sku name cat price attrs now).id = generate_uuid r) ∧
    (∀ r tid name st tg sa ea dl now,
      (mkCampaign r tid name st tg sa ea dl now).id = generate_uuid r) ∧
    (∀ r tid cid ty ben lim ap vf vt now,
      (mkOffer r tid cid ty ben lim ap vf vt now).id = generate_uuid r) ∧
    (∀ r tid oid uid code st rid now,
      (mkVoucher r tid oid uid code st rid now).id = generate_uuid r) ∧
    (∀ r tid cid pl sa se now,
      (mkPushNotification r tid cid pl sa se now).id = generate_uuid r) ∧
    (∀ r tid oid uid vid pr st rs now,
      (mkRedemption r tid oid uid vid pr st rs now).id = generate_uuid r) ∧
    (∀ r tid uid pt sid pa tc cur ln at2 now rid,
      (mkTransaction r tid uid pt sid pa tc cur ln at2 now rid).id = generate_uuid r) :=
  ⟨fun s op hd => exec_allIdsDistinct s op hd,
    uuid4Int_lt,
    fun r => uuidString_length (uuid4Int r),
    fun _ _ _ => rfl, fun _ _ _ _ _ _ _ _ => rfl, fun _ _ _ _ _ _ _ _ => rfl,
    fun _ _ _ _ _ _ _ _ _ => rfl, fun _ _ _ _ _ _ _ _ _ _ => rfl,
    fun _ _ _ _ _ _ _ _ => rfl, fun _ _ _ _ _ _ _ => rfl,
    fun _ _ _ _ _ _ _ _ _ => rfl, fun _ _ _ _ _ _ _ _ _ _ _ _ => rfl⟩

/-- Witness for C8: the concrete store has pairwise-distinct primary keys
and keeps them after creating a tenant with a generated id. -/
theorem primary_key_generation_witness :
    allIdsDistinct demoStore ∧
    allIdsDistinct (exec demoStore (Op.createTenant (mkTenant 0 "Initech" 7))) := by
  have hd : allIdsDistinct demoStore := by
    refine ⟨?_, ?_, ?_, ?_, ?_, ?_, ?_, ?_, ?_⟩ <;>
      simp [idsDistinct, demoStore, demoTenant, demoTenant2, demoUser,
        demoProduct, demoOffer, demoVoucher]
  exact ⟨hd, primary_key_generation.1 demoStore _ hd⟩

/-- Concrete fixture: an offer whose validity window is inverted
(valid_from strictly after valid_to). -/
def invertedWindowOffer : Offer :=
  ⟨"o9", "t1", none, "personal",
    Json.obj [("kind", Json.str "fixed"), ("value", Json.num 500)],
    Json.obj [], Json.arr [], 200, 100, 0⟩

/-- Claim C9: the validity window is not enforced by the schema.  This
concrete creation has valid_from strictly later than valid_to, satisfies
every declared constraint, succeeds, and is stored and fetched back
unchanged. -/
theorem offer_validity_window_not_enforced :
    invertedWindowOffer.valid_to < invertedWindowOffer.valid_from ∧
    insertOffer demoStore invertedWindowOffer =
      .ok { demoStore with offers := demoStore.offers ++ [invertedWindowOffer] } ∧
    fetchOffer { demoStore with offers := demoStore.offers ++ [invertedWindowOffer] }
      "o9" = some invertedWindowOffer :=
  ⟨by decide, rfl, rfl⟩

/-- Claim C10: consent defaults to off.  A User created without explicit
consent_push or consent_mktg values stores both flags false, and the row
fetched back after a successful insert is the one written. -/
theorem consent_defaults_off (r : Nat) (tid : String) (email phone : Option String)
    (attrs : Option Json) (now : Nat) (s s2 : Store)
    (h : insertUser s (mkUser r tid email phone attrs none none now) = .ok s2) :
    (mkUser r tid email phone attrs none none now).consent_push = false ∧
    (mkUser r tid email phone attrs none none now).consent_mktg = false ∧
    fetchUser s2 (mkUser r tid email phone attrs none none now).id =
      some (mkUser r tid email phone attrs none none now) := by
  obtain ⟨hpk, _, hs2⟩ := insertUser_inv h
  subst hs2
  refine ⟨rfl, rfl, ?_⟩
  exact find_append_singleton _ s.users _
    (forall_ne_of_any_beq_eq_false User.id s.users _ hpk) (by simp)

/-- Witness for C10: inserting a consent-defaulted user into the two-tenant
base store stores both consent flags as false. -/
theorem consent_defaults_off_witness :
    insertUser demoBase (mkUser 0 "t1" none none none none none 3) =
      .ok { demoBase with users := [mkUser 0 "t1" none none none none none 3] } ∧
    (mkUser 0 "t1" none none none none none 3).consent_push = false ∧
    fetchUser { demoBase with users := [mkUser 0 "t1" none none none none none 3] }
      (mkUser 0 "t1" none none none none none 3).id =
      some (mkUser 0 "t1" none none none none none 3) := by
  have h : insertUser demoBase (mkUser 0 "t1" none none none none none 3) =
      .ok { demoBase with users := [mkUser 0 "t1" none none none none none 3] } := rfl
  have h2 := consent_defaults_off 0 "t1" none none none 3 demoBase _ h
  exact ⟨h, h2.1, h2.2.2⟩
